import Mathlib

/-!
Verification development for the "twin" AI-chat pipeline.

The repository is a TypeScript application; the services verified here are
shallowly embedded as Lean functions over explicit inputs:

* JavaScript strings are modelled as Lean `String` (lists of code points);
  `String.prototype.includes`, `trim`, `toLowerCase`, `split` and decimal
  number rendering are modelled by executable functions below.  All string
  data handled by the pipeline is within the Basic Multilingual Plane, where
  code-point length and JS UTF-16 length agree.
* The external effects (Gemini/Mistral generation calls, the embedding API and
  the Supabase vector store) are modelled as oracle fields of an environment
  record; a fallible call is an `Except String` value (`Except.error` models a
  thrown exception).  `Math.random` selection is modelled by a natural-number
  index supplied as an argument.
* The floating-point confidence arithmetic of the ambiguity detector adds the
  literals 0.4/0.3/0.3 and compares against 0.5; this is held exactly in
  tenths (a `Nat`), with the rational view kept alongside.  Length scores
  (1.0/0.8/0.6/0.3) are rationals; at every comparison actually reached the
  float and rational computations agree on these values.
-/

set_option maxRecDepth 100000

namespace Twin

/-! ### JavaScript string primitives -/

/-- Substring test on code-point lists (the semantics of
`String.prototype.includes`), written with structural recursion so that it
kernel-evaluates on long concrete strings. -/
def isInfixB (t : List Char) : List Char → Bool
  | [] => t.isEmpty
  | c :: cs => t.isPrefixOf (c :: cs) || isInfixB t cs

theorem isInfixB_iff {t l : List Char} : isInfixB t l = true ↔ t <:+: l := by
  induction l with
  | nil =>
    cases t <;> simp [isInfixB]
  | cons c cs ih =>
    simp [isInfixB, List.infix_cons_iff, ih]

/-- JS `haystack.includes(needle)`. -/
def jsIncludes (s sub : String) : Bool := isInfixB sub.data s.data

theorem jsIncludes_iff {s sub : String} :
    jsIncludes s sub = true ↔ sub.data <:+: s.data := isInfixB_iff

theorem jsIncludes_eq_false {s sub : String} :
    jsIncludes s sub = false ↔ ¬ sub.data <:+: s.data := by
  rw [← jsIncludes_iff]
  cases h : jsIncludes s sub <;> simp

/-- The whitespace characters stripped by `String.prototype.trim` that occur
in this code base (space, tab, newline, carriage return). -/
def wsChar (c : Char) : Bool :=
  c.toNat == 32 || c.toNat == 9 || c.toNat == 10 || c.toNat == 13

def trimL (l : List Char) : List Char :=
  ((l.dropWhile wsChar).reverse.dropWhile wsChar).reverse

/-- JS `s.trim()`. -/
def jsTrim (s : String) : String := ⟨trimL s.data⟩

/-- ASCII case folding of one character; `String.prototype.toLowerCase` acts
exactly like this on the ASCII strings this code base compares. -/
def lowerChar (c : Char) : Char :=
  if 65 ≤ c.toNat ∧ c.toNat ≤ 90 then Char.ofNat (c.toNat + 32) else c

/-- JS `s.toLowerCase()`. -/
def jsToLower (s : String) : String := ⟨s.data.map lowerChar⟩

/-- Decimal digits of a positive number, most significant first (structural
recursion on a fuel bound so that it kernel-evaluates; `n` itself is always
enough fuel). -/
def natDigitsAux : Nat → Nat → List Char
  | 0, _ => []
  | _ + 1, 0 => []
  | fuel + 1, n + 1 =>
    natDigitsAux fuel ((n + 1) / 10) ++ [Char.ofNat (48 + (n + 1) % 10)]

def natDigits (n : Nat) : List Char := natDigitsAux n n

/-- Decimal rendering of a natural number (JS template interpolation of a
non-negative integer). -/
def natStr (n : Nat) : String := if n = 0 then "0" else ⟨natDigits n⟩

/-- JS `Array.prototype.join(sep)`. -/
def joinSep (sep : String) : List String → String
  | [] => ""
  | [s] => s
  | s :: r :: rest => s ++ sep ++ joinSep sep (r :: rest)

/-- `Array.from(new Set(l))`: keep the first occurrence of each element, in
order. -/
def dedupFrom {α : Type} [DecidableEq α] (seen : List α) : List α → List α
  | [] => []
  | x :: xs => if x ∈ seen then dedupFrom seen xs else x :: dedupFrom (x :: seen) xs

def jsDedup {α : Type} [DecidableEq α] (l : List α) : List α := dedupFrom [] l

/-- JS `s.split(' ').length`: one more than the number of space characters. -/
def spaceSplitLen (s : String) : Nat := s.data.countP (fun c => c == ' ') + 1

/-- Word counter matching JS `s.trim().split(/\s+/).length`. -/
def countWordsAux : Bool → List Char → Nat
  | _, [] => 0
  | inWord, c :: cs =>
    if wsChar c then countWordsAux false cs
    else (if inWord then 0 else 1) + countWordsAux true cs

def jsWordCount (s : String) : Nat :=
  let t := trimL s.data
  if t.isEmpty then 1 else countWordsAux false t

/-! ### Lemmas about the string primitives -/

theorem mem_dedupFrom {α : Type} [DecidableEq α] {x : α} {seen l : List α} :
    x ∈ dedupFrom seen l ↔ x ∈ l ∧ x ∉ seen := by
  induction l generalizing seen with
  | nil => simp [dedupFrom]
  | cons a as ih =>
    by_cases h : a ∈ seen
    · rw [dedupFrom, if_pos h, ih]
      simp only [List.mem_cons]
      constructor
      · rintro ⟨hx, hns⟩
        exact ⟨Or.inr hx, hns⟩
      · rintro ⟨hx | hx, hns⟩
        · exact absurd (hx ▸ h) hns
        · exact ⟨hx, hns⟩
    · rw [dedupFrom, if_neg h]
      simp only [List.mem_cons, ih, List.mem_cons]
      constructor
      · rintro (rfl | ⟨hx, hns⟩)
        · exact ⟨Or.inl rfl, h⟩
        · exact ⟨Or.inr hx, fun hc => hns (Or.inr hc)⟩
      · rintro ⟨rfl | hx, hns⟩
        · exact Or.inl rfl
        · by_cases hxa : x = a
          · exact Or.inl hxa
          · exact Or.inr ⟨hx, fun hc => hc.elim hxa hns⟩

theorem nodup_dedupFrom {α : Type} [DecidableEq α] (seen l : List α) :
    (dedupFrom seen l).Nodup := by
  induction l generalizing seen with
  | nil => simp [dedupFrom]
  | cons a as ih =>
    by_cases h : a ∈ seen
    · simpa [dedupFrom, if_pos h] using ih seen
    · rw [dedupFrom, if_neg h]
      refine List.Nodup.cons ?_ (ih (a :: seen))
      intro hc
      rcases mem_dedupFrom.mp hc with ⟨_, hns⟩
      exact hns (List.mem_cons_self a seen)

theorem mem_jsDedup {α : Type} [DecidableEq α] {x : α} {l : List α} :
    x ∈ jsDedup l ↔ x ∈ l := by
  simp [jsDedup, mem_dedupFrom]

theorem nodup_jsDedup {α : Type} [DecidableEq α] (l : List α) :
    (jsDedup l).Nodup := nodup_dedupFrom [] l

theorem dedupFrom_eq_self {α : Type} [DecidableEq α] {l : List α}
    (hn : l.Nodup) {seen : List α} (hs : ∀ x ∈ l, x ∉ seen) :
    dedupFrom seen l = l := by
  induction l generalizing seen with
  | nil => rfl
  | cons a as ih =>
    rcases List.nodup_cons.mp hn with ⟨ha, hn'⟩
    rw [dedupFrom, if_neg (hs a (List.mem_cons_self a as))]
    congr 1
    refine ih hn' fun x hx => ?_
    intro hc
    rcases List.mem_cons.mp hc with rfl | h2
    · exact ha hx
    · exact hs x (List.mem_cons_of_mem _ hx) h2

theorem jsDedup_eq_self {α : Type} [DecidableEq α] {l : List α} (hn : l.Nodup) :
    jsDedup l = l :=
  dedupFrom_eq_self hn (by simp)

theorem dropWhile_head_false {α : Type} {p : α → Bool} {l : List α}
    (h : ∀ x, l.head? = some x → p x = false) : l.dropWhile p = l := by
  cases l with
  | nil => rfl
  | cons c cs =>
    rw [List.dropWhile_cons, if_neg]
    simp [h c rfl]

theorem head?_dropWhile_false {α : Type} (p : α → Bool) (l : List α) :
    ∀ x, (l.dropWhile p).head? = some x → p x = false := by
  intro x hx
  have := List.head?_dropWhile_not p l
  rw [hx] at this
  exact this

theorem trimL_head (l : List Char) :
    ∀ c, (trimL l).head? = some c → wsChar c = false := by
  intro c hc
  rw [trimL, List.head?_reverse] at hc
  obtain ⟨s, hs⟩ := List.dropWhile_suffix (l := (l.dropWhile wsChar).reverse) wsChar
  have h1 : (l.dropWhile wsChar).reverse.getLast? = some c := by
    rw [← hs, List.getLast?_append, hc]
    rfl
  rw [List.getLast?_reverse] at h1
  exact head?_dropWhile_false wsChar l c h1

theorem trimL_getLast (l : List Char) :
    ∀ c, (trimL l).getLast? = some c → wsChar c = false := by
  intro c hc
  rw [trimL, List.getLast?_reverse] at hc
  exact head?_dropWhile_false wsChar _ c hc

theorem trimL_eq_self {l : List Char}
    (hh : ∀ c, l.head? = some c → wsChar c = false)
    (hl : ∀ c, l.getLast? = some c → wsChar c = false) : trimL l = l := by
  have h1 : l.dropWhile wsChar = l := dropWhile_head_false hh
  rw [trimL, h1]
  have h2 : l.reverse.dropWhile wsChar = l.reverse :=
    dropWhile_head_false (fun c hc => hl c (by rwa [List.head?_reverse] at hc))
  rw [h2, List.reverse_reverse]

theorem trimL_idem (l : List Char) : trimL (trimL l) = trimL l :=
  trimL_eq_self (trimL_head l) (trimL_getLast l)

theorem jsTrim_idem (s : String) : jsTrim (jsTrim s) = jsTrim s :=
  congrArg String.mk (trimL_idem s.data)

theorem char_toNat_ofNat {n : Nat} (h : n < 55296) : (Char.ofNat n).toNat = n := by
  rw [Char.ofNat, dif_pos (Or.inl h)]
  rfl

theorem lowerChar_not_upper (c : Char) :
    ¬ (65 ≤ (lowerChar c).toNat ∧ (lowerChar c).toNat ≤ 90) := by
  rw [lowerChar]
  by_cases h : 65 ≤ c.toNat ∧ c.toNat ≤ 90
  · rw [if_pos h, char_toNat_ofNat (by omega)]
    omega
  · rw [if_neg h]
    exact h

theorem lowerChar_idem (c : Char) : lowerChar (lowerChar c) = lowerChar c := by
  conv_lhs => rw [lowerChar]
  rw [if_neg (lowerChar_not_upper c)]

theorem wsChar_lowerChar (c : Char) : wsChar (lowerChar c) = wsChar c := by
  rw [lowerChar]
  by_cases h : 65 ≤ c.toNat ∧ c.toNat ≤ 90
  · rw [if_pos h]
    obtain ⟨h1, h2⟩ := h
    have ht : (Char.ofNat (c.toNat + 32)).toNat = c.toNat + 32 :=
      char_toNat_ofNat (by omega)
    have hA : wsChar (Char.ofNat (c.toNat + 32)) = false := by
      simp only [wsChar, ht, Bool.or_eq_false_iff, beq_eq_false_iff_ne, ne_eq]
      omega
    have hB : wsChar c = false := by
      simp only [wsChar, Bool.or_eq_false_iff, beq_eq_false_iff_ne, ne_eq]
      omega
    rw [hA, hB]
  · rw [if_neg h]

theorem jsToLower_idem (s : String) : jsToLower (jsToLower s) = jsToLower s := by
  refine congrArg String.mk ?_
  show List.map lowerChar (List.map lowerChar s.data) = List.map lowerChar s.data
  rw [List.map_map]
  exact List.map_congr_left fun c _ => lowerChar_idem c

theorem strData_append (s t : String) : (s ++ t).data = s.data ++ t.data := rfl

/-! ### Occurrence analysis for substrings of concatenations -/

theorem prefix_append_cases {α : Type} {t x y : List α} (h : t <+: x ++ y) :
    t <+: x ∨ ∃ t₂, t = x ++ t₂ ∧ t₂ <+: y := by
  induction x generalizing t with
  | nil => exact Or.inr ⟨t, by simp, by simpa using h⟩
  | cons c x' ih =>
    cases t with
    | nil => exact Or.inl (List.nil_prefix)
    | cons a t' =>
      rw [List.cons_append] at h
      rcases List.cons_prefix_cons.mp h with ⟨rfl, h'⟩
      rcases ih h' with h1 | ⟨t₂, rfl, h₂⟩
      · exact Or.inl (List.cons_prefix_cons.mpr ⟨rfl, h1⟩)
      · exact Or.inr ⟨t₂, by simp, h₂⟩

theorem infix_append_cases {α : Type} {t x y : List α} (h : t <:+: x ++ y) :
    t <:+: x ∨ t <:+: y ∨ ∃ t₁ t₂, t = t₁ ++ t₂ ∧ t₁ <:+ x ∧ t₂ <+: y := by
  induction x generalizing t with
  | nil => exact Or.inr (Or.inl (by simpa using h))
  | cons c x' ih =>
    rw [List.cons_append, List.infix_cons_iff] at h
    rcases h with h | h
    · have h' : t <+: (c :: x') ++ y := by simpa using h
      rcases prefix_append_cases h' with h1 | ⟨t₂, rfl, h₂⟩
      · exact Or.inl h1.isInfix
      · exact Or.inr (Or.inr ⟨c :: x', t₂, rfl, List.suffix_rfl, h₂⟩)
    · rcases ih h with h1 | h1 | ⟨t₁, t₂, rfl, h₁, h₂⟩
      · exact Or.inl (h1.trans (List.suffix_cons c x').isInfix)
      · exact Or.inr (Or.inl h1)
      · exact Or.inr (Or.inr ⟨t₁, t₂, rfl, h₁.trans (List.suffix_cons c x'), h₂⟩)

def isDigitChar (c : Char) : Bool := 48 ≤ c.toNat && c.toNat ≤ 57

theorem natDigitsAux_digit :
    ∀ fuel n, ∀ c ∈ natDigitsAux fuel n, isDigitChar c = true := by
  intro fuel
  induction fuel with
  | zero => simp [natDigitsAux]
  | succ f ih =>
    intro n
    match n with
    | 0 => simp [natDigitsAux]
    | m + 1 =>
      rw [natDigitsAux]
      intro c hc
      rcases List.mem_append.mp hc with h | h
      · exact ih ((m + 1) / 10) c h
      · rcases List.mem_singleton.mp h with rfl
        have hm : (m + 1) % 10 < 10 := Nat.mod_lt _ (by omega)
        have hv : (Char.ofNat (48 + (m + 1) % 10)).toNat = 48 + (m + 1) % 10 :=
          char_toNat_ofNat (by omega)
        simp only [isDigitChar, hv, Bool.and_eq_true, decide_eq_true_eq]
        omega

theorem natDigits_digit (n : Nat) : ∀ c ∈ natDigits n, isDigitChar c = true :=
  natDigitsAux_digit n n

theorem natStr_digit (n : Nat) : ∀ c ∈ (natStr n).data, isDigitChar c = true := by
  rw [natStr]
  by_cases h : n = 0
  · rw [if_pos h]
    intro c hc
    rcases List.mem_singleton.mp hc with rfl
    rfl
  · rw [if_neg h]
    exact natDigits_digit n

theorem natStr_ne_nil (n : Nat) : (natStr n).data ≠ [] := by
  rw [natStr]
  by_cases h : n = 0
  · rw [if_pos h]
    simp
  · rw [if_neg h]
    match n, h with
    | m + 1, _ =>
      show (natDigitsAux (m + 1) (m + 1)) ≠ []
      rw [natDigitsAux]
      simp

/-- A string with no digit character cannot occur across, or inside, a
non-empty all-digit segment: it occurs in the part before or the part after. -/
theorem not_infix_sep {t A d B : List Char}
    (ht : ∀ c ∈ t, isDigitChar c = false)
    (hd : ∀ c ∈ d, isDigitChar c = true) (hd0 : d ≠ [])
    (hA : ¬ t <:+: A) (hB : ¬ t <:+: B) : ¬ t <:+: A ++ (d ++ B) := by
  intro h
  rcases infix_append_cases h with h1 | h1 | ⟨t₁, t₂, ht12, h₁, h₂⟩
  · exact hA h1
  · rcases infix_append_cases h1 with h2 | h2 | ⟨s₁, s₂, hs12, g₁, g₂⟩
    · cases t with
      | nil => exact hA List.nil_infix
      | cons a t' =>
        have had : a ∈ d := h2.sublist.mem (List.mem_cons_self a t')
        have := ht a (List.mem_cons_self a t')
        rw [hd a had] at this
        simp at this
    · exact hB h2
    · cases s₁ with
      | nil =>
        refine hB ?_
        rw [hs12, List.nil_append] at *
        exact g₂.isInfix
      | cons a s' =>
        have had : a ∈ d := g₁.sublist.mem (List.mem_cons_self a s')
        have hat : a ∈ t := by
          rw [hs12]
          exact List.mem_append_left _ (List.mem_cons_self a s')
        have := ht a hat
        rw [hd a had] at this
        simp at this
  · rcases prefix_append_cases h₂ with h3 | ⟨t₃, ht3, h₃⟩
    · cases t₂ with
      | nil =>
        refine hA ?_
        rw [ht12, List.append_nil]
        exact h₁.isInfix
      | cons a t' =>
        have had : a ∈ d := h3.sublist.mem (List.mem_cons_self a t')
        have hat : a ∈ t := by
          rw [ht12]
          exact List.mem_append_right _ (List.mem_cons_self a t')
        have := ht a hat
        rw [hd a had] at this
        simp at this
    · cases d with
      | nil => exact hd0 rfl
      | cons a d' =>
        have had : isDigitChar a = true := hd a (List.mem_cons_self a d')
        have hat : a ∈ t := by
          rw [ht12, ht3]
          exact List.mem_append_right _ (List.mem_append_left _ (List.mem_cons_self a d'))
        have := ht a hat
        rw [had] at this
        simp at this

/-- Every array element occurs verbatim in `array.join(sep)`. -/
theorem infix_joinSep {sep s : String} :
    ∀ {l : List String}, s ∈ l → s.data <:+: (joinSep sep l).data := by
  intro l
  induction l with
  | nil => intro h; simp at h
  | cons a rest ih =>
    intro hs
    cases rest with
    | nil =>
      rcases List.mem_singleton.mp hs with rfl
      exact List.infix_rfl
    | cons b r' =>
      rcases List.mem_cons.mp hs with rfl | h
      · have hp : s.data <+: (s ++ sep ++ joinSep sep (b :: r')).data := by
          show s.data <+: s.data ++ sep.data ++ (joinSep sep (b :: r')).data
          rw [List.append_assoc]
          exact List.prefix_append _ _
        exact hp.isInfix
      · refine (ih h).trans ?_
        show (joinSep sep (b :: r')).data <:+:
          a.data ++ sep.data ++ (joinSep sep (b :: r')).data
        rw [List.append_assoc]
        exact ((List.suffix_append _ _).trans (List.suffix_append _ _)).isInfix

/-! ### Configuration tables (`src/app/lib/config/twinConfig.ts`, `part_013`) -/

inductive QuestionType where
  | casual
  | personal
  | technical
  | deep
  | specific
deriving DecidableEq

/-- `CLASSIFICATION_PATTERNS`. -/
def classificationPatterns : QuestionType → List String
  | .casual =>
    ["what's up", "whats up", "how are you", "sup", "hey", "hello",
     "what are you doing", "what are you upto", "how's it going"]
  | .personal =>
    ["like", "favorite", "prefer", "enjoy", "love", "hate",
     "tell me about", "what do you think", "your opinion"]
  | .technical =>
    ["code", "build", "tech", "program", "develop", "architecture",
     "how do you", "what framework", "database", "api"]
  | .deep =>
    ["philosophy", "believe", "values", "opinion on", "thoughts on",
     "what matters", "why do you", "meaning of"]
  | .specific =>
    ["yesterday", "today", "recently", "last week", "current",
     "right now", "these days", "lately"]

structure ResponseLengthConfig where
  target_words : Nat
  max_words : Nat
  style : String

/-- `COMMUNICATION_STYLE.response_length`. -/
def responseLength : QuestionType → ResponseLengthConfig
  | .casual => ⟨15, 30, "brief_and_natural"⟩
  | .personal => ⟨40, 80, "engaging_with_followup"⟩
  | .technical => ⟨100, 200, "detailed_with_examples"⟩
  | .deep => ⟨150, 300, "thoughtful_and_comprehensive"⟩
  | .specific => ⟨60, 120, "contextual_and_precise"⟩

/-- `COMMUNICATION_STYLE.structure_patterns`. -/
def structurePatterns : QuestionType → String
  | .casual => "direct_answer_then_reciprocal_question"
  | .personal => "share_then_ask_then_relate"
  | .technical => "overview_then_details_then_example"
  | .deep => "explore_then_synthesize_then_reflect"
  | .specific => "address_directly_then_contextualize"

/-- `COMMUNICATION_STYLE.tone.base_energy`. -/
def toneBaseEnergy : String := "enthusiastic_but_controlled"

/-- `COMMUNICATION_STYLE.tone.authenticity`. -/
def toneAuthenticity : String := "genuine_and_direct"

/-- `MEMORY_CONFIG.count`. -/
def memoryConfigCount : QuestionType → Nat
  | .casual => 0
  | .personal => 3
  | .technical => 5
  | .deep => 8
  | .specific => 6

/-- `MEMORY_CONFIG.thresholds` (similarity thresholds, exact rationals). -/
def memoryConfigThreshold : QuestionType → ℚ
  | .casual => 1/2
  | .personal => 3/10
  | .technical => 1/5
  | .deep => 3/20
  | .specific => 1/4

/-- `GENERATION_CONFIG.temperatures`. -/
def generationTemperature : QuestionType → ℚ
  | .casual => 7/10
  | .personal => 4/5
  | .technical => 3/5
  | .deep => 4/5
  | .specific => 1/2

/-- `INSTRUCTION_TEMPLATES`. -/
def instructionTemplates : QuestionType → String
  | .casual =>
    "CASUAL RESPONSE INSTRUCTIONS:\n• Keep it brief and natural\n• Match their casual energy\n• Don't over-explain\n• Feel free to ask \"What about you?\" if appropriate"
  | .personal =>
    "PERSONAL RESPONSE INSTRUCTIONS:\n• Share ONLY personal experiences that exist in your loaded memories\n• If no specific memories exist, discuss preferences in general terms\n• Ask follow-up questions to learn about them\n• Be genuine and relatable\n• NEVER fabricate specific events, concerts, trips, or experiences"
  | .technical =>
    "TECHNICAL RESPONSE INSTRUCTIONS:\n• Provide detailed technical insights\n• Use ONLY examples from your loaded memories\n• Explain concepts clearly\n• Show your expertise while being accessible\n• If no specific examples exist in memory, discuss concepts generally"
  | .deep =>
    "DEEP RESPONSE INSTRUCTIONS:\n• Explore the topic thoughtfully\n• Share ONLY thoughts and values from your documented memories\n• Ask meaningful follow-up questions\n• NEVER fabricate philosophical experiences or events"
  | .specific =>
    "SPECIFIC RESPONSE INSTRUCTIONS:\n• Address their specific question directly\n• Use ONLY memories that are explicitly loaded\n• If no relevant memories exist, be honest about it\n• Be precise and helpful without inventing details"

/-- `MEMORY_INSTRUCTIONS`. -/
def memoryInstructions : QuestionType → String
  | .casual => "If relevant, briefly mention your current focus"
  | .personal => "ONLY use the specific personal experiences listed in your memories - never invent new ones"
  | .technical => "Draw ONLY from your loaded technical knowledge and documented project experiences"
  | .deep => "Reference ONLY your documented values and verified experiences"
  | .specific => "Use ONLY specific memories that are explicitly loaded - never fabricate events"

/-- `RESPONSE_GUIDANCE`. -/
def responseGuidance : QuestionType → String
  | .casual => "respond casually and briefly to"
  | .personal => "share personally and ask back about"
  | .technical => "provide technical insight about"
  | .deep => "thoughtfully explore"
  | .specific => "address specifically"

/-! ### Question classifier
(`QuestionClassificationService` / `TwinService.classifyQuestion`) -/

/-- `fastClassifyByKeywords`: first keyword list with a substring match wins,
in the fixed order casual, personal, technical, deep, specific; `none` models
the `'unknown'` result. -/
def fastClassifyByKeywords (message : String) : Option QuestionType :=
  let lowerMessage := jsToLower message
  if (classificationPatterns .casual).any (fun p => jsIncludes lowerMessage p) then
    some .casual
  else if (classificationPatterns .personal).any (fun p => jsIncludes lowerMessage p) then
    some .personal
  else if (classificationPatterns .technical).any (fun p => jsIncludes lowerMessage p) then
    some .technical
  else if (classificationPatterns .deep).any (fun p => jsIncludes lowerMessage p) then
    some .deep
  else if (classificationPatterns .specific).any (fun p => jsIncludes lowerMessage p) then
    some .specific
  else
    none

/-- The classification LLM call (`llmClassifyQuestion`): `llmAnswer` is the
oracle for `result.response.text()` (`none` models a thrown error or a
missing text).  The answer is trimmed, lowercased and validated against the
five category names; anything else falls back to `casual`. -/
def llmClassifyQuestion (llmAnswer : Option String) : QuestionType :=
  match llmAnswer with
  | none => .casual
  | some ans =>
    let c := jsToLower (jsTrim ans)
    if c = "casual" then .casual
    else if c = "personal" then .personal
    else if c = "technical" then .technical
    else if c = "deep" then .deep
    else if c = "specific" then .specific
    else .casual

/-- `classifyQuestion`, instrumented with whether the LLM fallback was
invoked. -/
def classifyQuestion (llmAnswer : Option String) (message : String) :
    QuestionType × Bool :=
  match fastClassifyByKeywords message with
  | some t => (t, false)
  | none => (llmClassifyQuestion llmAnswer, true)

/-! ### Ambiguity detector (`AmbiguityDetectionService`) -/

/-- `AMBIGUOUS_KEYWORDS.generic_patterns`: each of the six regexes is an
unanchored alternation of literal phrases, embedded as the list of its
alternatives (the regex matches iff one alternative is a substring). -/
def genericPatterns : List (List String) :=
  [["what do you like", "what do you enjoy", "what do you prefer",
    "what do you love", "what do you hate"],
   ["what are you into", "what are you interested in"],
   ["tell me what you like", "tell me what you enjoy",
    "tell me about you like", "tell me about you enjoy"],
   ["what interests you", "what excites you"],
   ["what do you think about"],
   ["what are your thoughts", "what are your opinions"]]

/-- `AMBIGUOUS_KEYWORDS.vague_objects`. -/
def vagueObjects : List String :=
  ["things", "stuff", "anything", "something", "everything"]

inductive Domain where
  | music
  | technology
  | food
  | movies
  | activities
  | books
  | work
  | travel
deriving DecidableEq

def allDomains : List Domain :=
  [.music, .technology, .food, .movies, .activities, .books, .work, .travel]

/-- `KNOWLEDGE_DOMAINS[domain].keywords`. -/
def domainKeywords : Domain → List String
  | .music =>
    ["music", "song", "band", "artist", "genre", "album", "playlist", "sound", "track"]
  | .technology =>
    ["technology", "programming", "code", "framework", "language", "software",
     "development", "tech", "coding"]
  | .food =>
    ["food", "eating", "cooking", "restaurant", "cuisine", "meal", "recipe", "taste"]
  | .movies =>
    ["movie", "film", "cinema", "series", "show", "tv", "entertainment", "actor"]
  | .activities =>
    ["hobby", "activity", "sport", "exercise", "game", "fun", "leisure", "pastime"]
  | .books =>
    ["book", "reading", "novel", "author", "literature", "story", "write", "writing"]
  | .work =>
    ["work", "job", "career", "project", "business", "professional", "office"]
  | .travel =>
    ["travel", "trip", "vacation", "place", "country", "city", "visit"]

/-- `detectKeywordAmbiguity`: generic question pattern or vague-object word. -/
def detectKeywordAmbiguity (message : String) : Bool × List String :=
  let lowerMessage := jsToLower message
  let hasGenericPattern :=
    genericPatterns.any (fun alts => alts.any (fun a => jsIncludes lowerMessage a))
  let hasVagueObjects := vagueObjects.any (fun w => jsIncludes lowerMessage w)
  (hasGenericPattern || hasVagueObjects,
    (if hasGenericPattern then ["generic_question_pattern"] else []) ++
      (if hasVagueObjects then ["contains_vague_objects"] else []))

/-- The domains whose keyword list hits the lowercased message
(`detectScopeAmbiguity`'s `mentionedDomains`). -/
def mentionedDomains (message : String) : List Domain :=
  let lowerMessage := jsToLower message
  allDomains.filter (fun d => (domainKeywords d).any (fun k => jsIncludes lowerMessage k))

/-- `detectScopeAmbiguity`: ambiguous iff no knowledge domain is mentioned. -/
def detectScopeAmbiguity (message : String) : Bool × List String :=
  let md := mentionedDomains message
  (md.isEmpty,
    if md.length = 0 then ["no_specific_domain_mentioned"]
    else if md.length > 2 then ["too_many_domains_mentioned"]
    else [])

def contextClues : List String :=
  ["recently", "currently", "for work", "for fun", "when coding",
   "in your free time", "professionally", "personally", "these days"]

def specificModifiers : List String :=
  ["favorite", "best", "most", "least", "preferred", "top",
   "specific", "particular", "exactly", "precisely"]

/-- `analyzeQuestionSpecificity`.  The float score (steps of 0.1) is held
exactly in tenths as an `Int`; the result is
(isAmbiguous, score in tenths, reasons). -/
def analyzeQuestionSpecificity (message : String) : Bool × Int × List String :=
  let wordCount := jsWordCount message
  let short : Int × List String :=
    if wordCount ≤ 4 then (-4, ["very_short_question"])
    else if wordCount ≤ 6 then (-2, ["short_question"])
    else (0, [])
  let hasContextClues :=
    contextClues.any (fun c => jsIncludes (jsToLower message) c)
  let clues : Int × List String :=
    if hasContextClues then (3, []) else (0, ["no_context_clues"])
  let hasSpecificModifiers :=
    specificModifiers.any (fun m => jsIncludes (jsToLower message) m)
  let modifiers : Int := if hasSpecificModifiers then 2 else 0
  let score := short.1 + clues.1 + modifiers
  (decide (score < 0), score, short.2 ++ clues.2)

structure AmbiguityDetectionResult where
  isAmbiguous : Bool
  /-- The accumulated confidence, held exactly in tenths (source floats
  0.4/0.3/0.3, capped by `Math.min(confidence, 1.0)`). -/
  confidenceTenths : Nat
  clarificationNeeded : Bool
  reasons : List String
  suggestedDomains : Option (List String)

/-- The rational value of the accumulated confidence. -/
def AmbiguityDetectionResult.confidence (r : AmbiguityDetectionResult) : ℚ :=
  (r.confidenceTenths : ℚ) / 10

/-- `AmbiguityDetectionService.detectAmbiguity`: the short-circuit cascade
keyword (0.4) → scope (0.3) → specificity (0.3); ambiguous iff the
accumulated confidence reaches 0.5. -/
def detectAmbiguity (message : String) : AmbiguityDetectionResult :=
  let kw := detectKeywordAmbiguity message
  let scope := detectScopeAmbiguity message
  let spec := analyzeQuestionSpecificity message
  let acc : Nat × List String :=
    if kw.1 then
      if scope.1 then
        if spec.1 then (10, kw.2 ++ scope.2 ++ spec.2.2)
        else (7, kw.2 ++ scope.2)
      else (4, kw.2)
    else (0, [])
  let isAmb := decide (5 ≤ acc.1)
  { isAmbiguous := isAmb
    confidenceTenths := min acc.1 10
    clarificationNeeded := isAmb
    reasons := acc.2
    suggestedDomains :=
      if isAmb then some ["music", "technology", "activities", "food", "movies"]
      else none }

/-! ### Memory data model -/

inductive MemType where
  | fact
  | diary
  | preference
  | user_input
  | system
deriving DecidableEq

def memTypeStr : MemType → String
  | .fact => "fact"
  | .diary => "diary"
  | .preference => "preference"
  | .user_input => "user_input"
  | .system => "system"

inductive Visibility where
  | visPublic
  | visCloseFriends
  | visPrivate
deriving DecidableEq

inductive Subject where
  | self
  | user
deriving DecidableEq

/-- The projection of a memory returned by similarity search and consumed by
the pipeline (`RetrievedMemory`). -/
structure RetrievedMemory where
  id : String
  content : String
  mtype : MemType
  relevance_score : ℚ
  tags : List String
  mood : Option String
  created_at : String

inductive RelationshipLevel where
  | stranger
  | acquaintance
  | friend
  | close_friend
deriving DecidableEq

def relationshipLevelStr : RelationshipLevel → String
  | .stranger => "stranger"
  | .acquaintance => "acquaintance"
  | .friend => "friend"
  | .close_friend => "close_friend"

structure UserMemoryContext where
  user_id : String
  known_preferences : List String
  conversation_history_length : Nat
  relationship_level : RelationshipLevel
  last_interaction : String

/-- `determineRelationshipLevel` (identical in `TwinService`,
`MemoryRetrievalService` and `TwinUtilsService`). -/
def determineRelationshipLevel (interactionCount : Nat) : RelationshipLevel :=
  if interactionCount = 0 then .stranger
  else if interactionCount < 5 then .acquaintance
  else if interactionCount < 20 then .friend
  else .close_friend

/-! ### The prompt builder inside the orchestrator
(`TwinService.buildEnhancedSystemPrompt`, `twinService.ts` lines 319-384) -/

/-- One memory line of the `RELEVANT PERSONAL CONTEXT` block
(`• ${memory.content}${memory.mood ? ` (${memory.mood})` : ''}`; an empty
mood string is falsy in JS and renders nothing). -/
def tsMemoryLine (m : RetrievedMemory) : String :=
  "• " ++ m.content ++
    (match m.mood with
     | some md => if md = "" then "" else " (" ++ md ++ ")"
     | none => "")

def tsUserBlock (u : UserMemoryContext) : String :=
  "\n\nUSER CONTEXT:\n• " ++ natStr u.conversation_history_length ++
    " previous interactions\n• Relationship: " ++
    relationshipLevelStr u.relationship_level

def TwinService_buildEnhancedSystemPrompt (qt : QuestionType)
    (memories : List RetrievedMemory) (userContext : Option UserMemoryContext) :
    String :=
  let s := responseLength qt
  let base :=
    "You are Pragyan, a real person having a genuine conversation.\n\nCOMMUNICATION STYLE FOR THIS RESPONSE:\n• Response length: " ++
      natStr s.target_words ++ " words (max " ++ natStr s.max_words ++
      ")\n• Style: " ++ s.style ++ "\n• Tone: " ++ toneBaseEnergy ++
      "\n• Structure: " ++ structurePatterns qt ++ "\n• Authenticity: " ++
      toneAuthenticity
  let withMem :=
    if memories.isEmpty then base
    else
      base ++ "\n\nRELEVANT PERSONAL CONTEXT:\n" ++
        joinSep "\n" (memories.map tsMemoryLine)
  let withUser :=
    match userContext with
    | some u => withMem ++ tsUserBlock u
    | none => withMem
  withUser ++ "\n\n" ++ instructionTemplates qt

/-- `TwinService.buildEnhancedConversationContext`. -/
def TwinService_buildEnhancedConversationContext (qt : QuestionType)
    (memories : List RetrievedMemory) (userContext : Option UserMemoryContext)
    (message : String) : String :=
  (if memories.isEmpty then "" else memoryInstructions qt ++ " ") ++
    (match userContext with
     | some u =>
       if 0 < u.conversation_history_length then
         "Building on your " ++ natStr u.conversation_history_length ++
           " previous interactions, "
       else ""
     | none => "") ++
    responseGuidance qt ++ ": \"" ++ message ++ "\""

/-! ### The standalone prompt builder (`PromptBuilderService`,
`promptBuilderService.ts`).  The source file is stored with a double-encoded
byte sequence for the bullet and siren characters; the literals below
reproduce the file's characters exactly ("â€¢", "ðŸš¨"). -/

def PB_header : String :=
  "You are Pragyan's AI twin with access to limited memories about Pragyan.\n\nðŸš¨ ABSOLUTE MEMORY CONSTRAINTS (OVERRIDE ALL OTHER INSTRUCTIONS):\nâ€¢ You MUST ONLY reference experiences that are explicitly listed in your RELEVANT PERSONAL CONTEXT below\nâ€¢ You MUST NOT fabricate, invent, or assume any memories, events, places, or experiences\nâ€¢ If you don't have a relevant memory, you MUST say \"I don't have specific memories about...\" \nâ€¢ You MUST NOT mention specific events, places, or details unless they appear in your context\nâ€¢ If asked about something not in your memories, be honest about the limitation and redirect to learning about the user\nâ€¢ You MUST NOT assume the user shares your background, location, or experiences - ask open-ended questions"

def PB_memHeader : String := "\n\nRELEVANT PERSONAL CONTEXT (ONLY USE THESE):\n"

def PB_memFooter : String :=
  "\n\nMEMORY VALIDATION: These are the ONLY facts you can reference. Nothing else exists in your knowledge."

def PB_noMemBlock : String :=
  "\n\nRELEVANT PERSONAL CONTEXT: None available\nCRITICAL: You have NO specific memories loaded. You MUST NOT invent any specific experiences, events, or details. Discuss topics in general terms only and focus on learning about the user."

def pbMemoryLine (m : RetrievedMemory) : String :=
  "â€¢ " ++ m.content ++
    (match m.mood with
     | some md => if md = "" then "" else " (" ++ md ++ ")"
     | none => "")

def PB_userBlock (u : UserMemoryContext) : String :=
  "\n\nUSER CONTEXT:\nâ€¢ " ++ natStr u.conversation_history_length ++
    " previous interactions\nâ€¢ Relationship: " ++
    relationshipLevelStr u.relationship_level

def PB_styleBlock (qt : QuestionType) : String :=
  let s := responseLength qt
  "\n\nCOMMUNICATION STYLE (SECONDARY TO MEMORY CONSTRAINTS):\nâ€¢ Response length: " ++
    natStr s.target_words ++ " words (max " ++ natStr s.max_words ++
    ")\nâ€¢ Style: " ++ s.style ++ "\nâ€¢ Tone: " ++ toneBaseEnergy ++
    "\nâ€¢ Authenticity: " ++ toneAuthenticity

/-- `PromptBuilderService.getMemorySafeInstructions`. -/
def getMemorySafeInstructions (qt : QuestionType) (hasMemories : Bool) : String :=
  if !hasMemories then
    "RESPONSE INSTRUCTIONS (NO MEMORIES LOADED):\nâ€¢ Be honest about not having specific memories\nâ€¢ Don't fabricate or assume information\nâ€¢ Focus on learning about the user instead\nâ€¢ Keep responses brief and redirect to user questions"
  else
    match qt with
    | .casual =>
      "CASUAL RESPONSE INSTRUCTIONS:\nâ€¢ Keep it brief and natural\nâ€¢ Only reference your loaded memories if directly relevant\nâ€¢ Don't over-explain\nâ€¢ Feel free to ask \"What about you?\" if appropriate"
    | .personal =>
      "PERSONAL RESPONSE INSTRUCTIONS:\nâ€¢ Share ONLY from your explicitly loaded memories\nâ€¢ If no relevant memories exist, admit it honestly\nâ€¢ Ask follow-up questions to learn about them (but don't assume they share your background)\nâ€¢ Be genuine but constrained to your actual context\nâ€¢ NEVER fabricate specific events, places, or experiences\nâ€¢ Do not assume the user is from the same place or has the same experiences as you"
    | .technical =>
      "TECHNICAL RESPONSE INSTRUCTIONS:\nâ€¢ Provide technical insights ONLY from your loaded memories\nâ€¢ Use examples only if they exist in your context\nâ€¢ If no specific examples exist, discuss concepts generally\nâ€¢ Explain clearly but stay within your memory bounds"
    | .deep =>
      "DEEP RESPONSE INSTRUCTIONS:\nâ€¢ Explore the topic thoughtfully using ONLY your loaded memories\nâ€¢ Share values and thoughts only if they exist in your context\nâ€¢ Ask meaningful follow-up questions\nâ€¢ NEVER fabricate philosophical experiences or events"
    | .specific =>
      "SPECIFIC RESPONSE INSTRUCTIONS:\nâ€¢ Address the question using ONLY your loaded memories\nâ€¢ If no relevant memories exist, be honest about it\nâ€¢ Be precise and helpful without inventing details\nâ€¢ Redirect to learning about the user when appropriate"

/-- `PromptBuilderService.buildEnhancedSystemPrompt`. -/
def PromptBuilder_buildEnhancedSystemPrompt (qt : QuestionType)
    (memories : List RetrievedMemory) (userContext : Option UserMemoryContext) :
    String :=
  let withMem :=
    if memories.isEmpty then PB_header ++ PB_noMemBlock
    else
      PB_header ++ PB_memHeader ++ joinSep "\n" (memories.map pbMemoryLine) ++
        PB_memFooter
  let withUser :=
    match userContext with
    | some u => withMem ++ PB_userBlock u
    | none => withMem
  withUser ++ PB_styleBlock qt ++ "\nâ€¢ Structure: " ++
    (if memories.isEmpty then "admit_limitation_then_ask_about_user"
     else structurePatterns qt) ++
    "\n\n" ++ getMemorySafeInstructions qt (!memories.isEmpty)

/-! ### Graceful error handling (`ErrorHandlingService`, `part_016`) -/

structure GracefulErrorResponse where
  response : String
  tokens_used : Nat
  isGracefulError : Bool

/-- `getOverloadResponse`'s pool, including the two context-aware entries. -/
def overloadResponses (userMessage : String) : List String :=
  ["My brain is having a little traffic jam right now 🧠🚗 The AI servers are busier than a coffee shop during finals week! Give me a second to get my thoughts together?",
   "Oops, looks like I'm experiencing some mental lag! 🤯 The free AI servers are getting hammered harder than my keyboard during a coding session. Mind trying that again?",
   "Ahh, the classic 'my brain is buffering' moment! 🔄 Seems like everyone's asking their AI friends deep questions today. Let me reboot real quick...",
   "My neural networks are doing the digital equivalent of 'umm...' right now 😅 The servers are more packed than a tech conference! Hit me again?",
   "Brain.exe has stopped responding! 💻 Looks like the AI servers are having their own existential crisis. Try asking me again - I promise I'm usually more coherent than this!",
   "Currently experiencing a 503 brain error - that's tech speak for 'too many people are being curious at once!' 🤓 Give it another shot?",
   "My thoughts are getting a 'service temporarily unavailable' error 😂 Even us AI twins need a breather sometimes. Ready for round two?"] ++
    (if jsIncludes (jsToLower userMessage) "music" then
      ["My music database is currently skipping like an old CD player! 🎵💿 The servers are overloaded - try asking about my tunes again?"]
    else []) ++
    (if jsIncludes (jsToLower userMessage) "tech" || jsIncludes (jsToLower userMessage) "code" then
      ["Ironically, I'm experiencing a technical difficulty while you're asking about tech! 🛠️ The servers are running hotter than my laptop during a build. Try again?"]
    else [])

def quotaResponses : List String :=
  ["Looks like I've hit my daily thinking quota! 🧠💸 Even AI brains have budgets apparently. This is awkward...",
   "My free trial brain has expired! 😅 Time to upgrade to premium thoughts, I guess. Give me a moment to figure this out...",
   "Apparently I've been overthinking today and maxed out my AI allowance! 🤔💳 The irony is not lost on me..."]

def networkResponses : List String :=
  ["My internet connection is having an identity crisis! 🌐❓ Even my WiFi is confused about what I'm trying to say right now...",
   "Connection timeout - which is just fancy tech speak for 'the internet is being moody' 📶😤 Let me try reconnecting my thoughts...",
   "Looks like my neural pathways got lost in cyberspace! 🚀🧠 Give me a sec to find my way back to coherent responses..."]

def modelResponses : List String :=
  ["Something's wonky with my AI configuration! ⚙️🤖 I'm like a computer that forgot how to computer for a second...",
   "My language model is having a grammar crisis! 📚😵 Even I don't understand what just happened there. Try again?",
   "Looks like my AI settings got scrambled! 🔀 I promise I'm usually more articulate than 'error 400'..."]

def genericResponses (userMessage : String) : List String :=
  ["Well, this is embarrassing... My brain just did the digital equivalent of walking into a glass door! 🚪🤕 Mind giving me another shot?",
   "I just experienced what I can only describe as a 'cosmic brain fart' ⭐💨 Technology, am I right? Let's try this again...",
   "My AI neurons are apparently having a union meeting right now! 🧠⚡ They'll be back shortly. Hit me with that question again?",
   "Oops! My thought process just encountered a 'file not found' error 📁❌ The irony of a tech person's AI having tech problems is not lost on me...",
   "Currently experiencing technical difficulties... the kind that make you want to turn it off and on again! 🔌 Ready for attempt #2?"] ++
    (if 50 < userMessage.length then
      ["Your thoughtful question deserves a better response than whatever digital hiccup just happened! 🤦‍♂️ Let me try again..."]
    else []) ++
    (if jsIncludes userMessage "?" then
      ["Your question is perfectly valid - my answer processing system is just having a moment! 🤔⚡ One more time?"]
    else [])

/-- `getRandomResponse`: `Math.floor(Math.random() * responses.length)` is
modelled by an externally supplied index reduced modulo the pool size. -/
def getRandomResponse (responses : List String) (rng : Nat) : String :=
  responses.getD (rng % responses.length) ""

/-- `getPersonalityErrorResponse`: the error-signature dispatch.  The error is
identified with its message string (`error?.message || error?.toString() || ''`). -/
def getPersonalityErrorResponse (errorMessage userMessage : String) (rng : Nat) :
    String :=
  if jsIncludes errorMessage "503" || jsIncludes errorMessage "Service Unavailable" ||
      jsIncludes errorMessage "overloaded" || jsIncludes errorMessage "429" ||
      jsIncludes errorMessage "rate limit" then
    getRandomResponse (overloadResponses userMessage) rng
  else if jsIncludes errorMessage "quota" || jsIncludes errorMessage "exceeded" ||
      jsIncludes errorMessage "billing" then
    getRandomResponse quotaResponses rng
  else if jsIncludes errorMessage "network" || jsIncludes errorMessage "connection" ||
      jsIncludes errorMessage "timeout" || jsIncludes errorMessage "ENOTFOUND" then
    getRandomResponse networkResponses rng
  else if jsIncludes errorMessage "model" || jsIncludes errorMessage "invalid" ||
      jsIncludes errorMessage "400" then
    getRandomResponse modelResponses rng
  else
    getRandomResponse (genericResponses userMessage) rng

/-- `ErrorHandlingService.handleGeminiError` (`tokens_used =
Math.ceil(errorResponse.length / 4)`). -/
def handleGeminiError (errorMessage userMessage : String) (rng : Nat) :
    GracefulErrorResponse :=
  let errorResponse := getPersonalityErrorResponse errorMessage userMessage rng
  { response := errorResponse
    tokens_used := (errorResponse.length + 3) / 4
    isGracefulError := true }

/-- `ErrorHandlingService.shouldHandleGracefully`: the nine transient
signatures. -/
def shouldHandleGracefully (errorMessage : String) : Bool :=
  jsIncludes errorMessage "503" ||
    jsIncludes errorMessage "429" ||
    jsIncludes errorMessage "overloaded" ||
    jsIncludes errorMessage "rate limit" ||
    jsIncludes errorMessage "quota" ||
    jsIncludes errorMessage "network" ||
    jsIncludes errorMessage "timeout" ||
    jsIncludes errorMessage "Service Unavailable" ||
    jsIncludes errorMessage "connection"

/-- `ResponseGeneratorService.handleGenerationError`: a matching transient
error becomes a graceful in-character result, anything else is re-thrown
(`Except.error`). -/
def handleGenerationError (errorMessage userMessage : String) (rng : Nat) :
    Except String GracefulErrorResponse :=
  if shouldHandleGracefully errorMessage then
    .ok (handleGeminiError errorMessage userMessage rng)
  else
    .error ("Failed to generate response: " ++ errorMessage)

/-! ### Learning / write-back (`LearningService` / `TwinService`) -/

def extractPersonalPreferences (message : String) : List String :=
  let lowerMessage := jsToLower message
  (if jsIncludes lowerMessage "music" || jsIncludes lowerMessage "song" then
    ["music_interest"] else []) ++
    (if jsIncludes lowerMessage "tech" || jsIncludes lowerMessage "programming" then
      ["technology_interest"] else [])

def extractTechnicalInterests (message : String) : List String :=
  let lowerMessage := jsToLower message
  (if jsIncludes lowerMessage "javascript" || jsIncludes lowerMessage "js" then
    ["javascript_interest"] else []) ++
    (if jsIncludes lowerMessage "python" then ["python_interest"] else []) ++
    (if jsIncludes lowerMessage "react" || jsIncludes lowerMessage "nextjs" then
      ["frontend_interest"] else [])

def extractPhilosophicalInterests (message : String) : List String :=
  let lowerMessage := jsToLower message
  (if jsIncludes lowerMessage "ai" || jsIncludes lowerMessage "artificial intelligence" then
    ["ai_philosophy_interest"] else []) ++
    (if jsIncludes lowerMessage "future" || jsIncludes lowerMessage "technology" then
      ["future_tech_interest"] else [])

def extractContextualInfo (message : String) : List String :=
  let lowerMessage := jsToLower message
  if jsIncludes lowerMessage "today" || jsIncludes lowerMessage "recently" then
    ["current_events_interest"] else []

def extractCommunicationStyle (message : String) : List String :=
  (if message.length < 20 then ["prefers_brief_communication"] else []) ++
    (if jsIncludes message "?" then ["asks_questions"] else [])

def extractQuestionTypeInsights (message : String) : QuestionType → List String
  | .personal => extractPersonalPreferences message
  | .technical => extractTechnicalInterests message
  | .deep => extractPhilosophicalInterests message
  | .specific => extractContextualInfo message
  | .casual => extractCommunicationStyle message

/-- `calculateLengthScore` (identical in `TwinService` and
`LearningService`): the length-appropriateness score. -/
def calculateLengthScore (actualWords : Nat) (targetConfig : ResponseLengthConfig) :
    ℚ :=
  if (actualWords : ℚ) ≤ (targetConfig.target_words : ℚ) * 1.2 then 1.0
  else if (actualWords : ℚ) ≤ (targetConfig.max_words : ℚ) then 0.8
  else if (actualWords : ℚ) ≤ (targetConfig.max_words : ℚ) * 1.5 then 0.6
  else 0.3

/-- `assessResponseQuality`: the word count is `response.split(' ').length`. -/
def assessResponseQuality (response : String) (qt : QuestionType) : ℚ :=
  calculateLengthScore (spaceSplitLen response) (responseLength qt)

structure EnhancedLearningResult where
  new_memories_created : Nat
  user_insights_gained : List String
  response_quality_score : ℚ
  conversation_patterns_stored : Nat

structure TwinChatRequest where
  message : String
  conversation_id : Option String
  user_id : Option String
  user_name : Option String

/-- JS truthiness of `request.user_id` (an empty string is falsy). -/
def reqUserId (r : TwinChatRequest) : Option String :=
  match r.user_id with
  | some u => if u = "" then none else some u
  | none => none

/-- `TwinService.enhancedLearnFromInteraction`.  `storeOk` is the oracle for
the embed-and-insert of the user message (`storeUserMessageEnhanced`); when it
throws, the surrounding `catch` returns the partial counters (everything still
zero/empty).  `storeConversationPattern` swallows its own errors, so the
pattern counter only depends on the quality gate. -/
def enhancedLearnFromInteraction (storeOk : Bool) (qt : QuestionType)
    (req : TwinChatRequest) (responseText : String) : EnhancedLearningResult :=
  let store := (reqUserId req).isSome && decide (10 < (jsTrim req.message).length)
  let rest : Nat → EnhancedLearningResult := fun created =>
    let insights := extractQuestionTypeInsights req.message qt
    let quality := assessResponseQuality responseText qt
    { new_memories_created := created
      user_insights_gained := insights
      response_quality_score := quality
      conversation_patterns_stored := if (7 : ℚ)/10 < quality then 1 else 0 }
  if store then
    if storeOk then rest 1
    else
      { new_memories_created := 0
        user_insights_gained := []
        response_quality_score := 0
        conversation_patterns_stored := 0 }
  else rest 0

/-! ### Memory retrieval and user context
(`MemoryRetrievalService` / `TwinService`) -/

structure SearchQuery where
  threshold : ℚ
  limit : Nat
  subject : Subject
  visibility : Visibility

structure MemRow where
  id : String
  content : String
  mtype : MemType
  similarity : Option ℚ
  tags : List String
  mood : Option String
  created_at : String

structure UserMemRow where
  tags : List String
  created_at : String

structure MemQuery where
  user_id : String
  mtype : MemType
  limit : Nat

structure GetMemoriesResult where
  memories : List UserMemRow
  total : Nat

/-- The environment of external collaborators of one chat turn: each field is
the outcome (or outcome function) of one kind of external call. -/
structure ChatEnv where
  /-- Text answered by the classification LLM fallback; `none` models a
  thrown error or missing text. -/
  llmClassifyAnswer : Option String
  /-- `createEmbeddings` on the user message. -/
  embedResult : Except String (List ℚ)
  /-- `DatabaseService.searchMemories`. -/
  search : SearchQuery → Except String (List MemRow)
  /-- What the store holds for a `DatabaseService.getMemories` query: the
  rows and total a successful call returns. -/
  getMemoriesDb : MemQuery → GetMemoriesResult
  /-- Whether (and with which message) that call throws instead —
  `DatabaseService.getMemories` re-throws Supabase/connection failures via
  `handleSupabaseError`. -/
  getMemoriesError : MemQuery → Option String
  /-- The main generation call (`model.generateContent(...).response.text()`);
  `Except.error` carries the provider error message. -/
  providerResult : Except String String
  /-- Embed-and-insert of the user message during learning. -/
  storeUserMessageOk : Bool

structure RetrievalOutcome where
  memories : List RetrievedMemory
  embedCalled : Bool
  searchCalled : Bool

/-- `retrieveRelevantMemoriesEnhanced`, instrumented with which external
calls were issued.  A zero configured count returns immediately; any
embedding or search failure is absorbed into an empty list. -/
def retrieveRelevantMemoriesEnhanced (env : ChatEnv) (_message : String)
    (qt : QuestionType) : RetrievalOutcome :=
  let memoryCount := memoryConfigCount qt
  if memoryCount = 0 then ⟨[], false, false⟩
  else
    match env.embedResult with
    | .error _ => ⟨[], true, false⟩
    | .ok _ =>
      match env.search ⟨memoryConfigThreshold qt, memoryCount, .self, .visPublic⟩ with
      | .error _ => ⟨[], true, true⟩
      | .ok rows =>
        ⟨rows.map fun r =>
          { id := r.id
            content := r.content
            mtype := r.mtype
            relevance_score := r.similarity.getD 0
            tags := r.tags
            mood := r.mood
            created_at := r.created_at }, true, true⟩

/-- The `getMemories` filter issued by `getUserContext`. -/
def userContextQuery (userId : String) : MemQuery :=
  { user_id := userId, mtype := .user_input, limit := 50 }

/-- `extractUserPreferences`: all tags of all rows, deduplicated in first
occurrence order (`[...new Set(...)]`). -/
def extractUserPreferences (memories : List UserMemRow) : List String :=
  jsDedup (memories.map (fun m => m.tags)).flatten

/-- The outcome of one `DatabaseService.getMemories` call. -/
def dbGetMemories (env : ChatEnv) (q : MemQuery) : Except String GetMemoriesResult :=
  match env.getMemoriesError q with
  | some e => .error e
  | none => .ok (env.getMemoriesDb q)

/-- `getUserContext`: `null` when the `getMemories` call throws (the `catch`
logs and returns `null`) or yields no memories; otherwise tags are
aggregated and the relationship tier is computed from the total count. -/
def getUserContext (env : ChatEnv) (userId : String) : Option UserMemoryContext :=
  match dbGetMemories env (userContextQuery userId) with
  | .error _ => none
  | .ok res =>
  if res.memories.isEmpty then none
  else
    some
      { user_id := userId
        known_preferences := extractUserPreferences res.memories
        conversation_history_length := res.total
        relationship_level := determineRelationshipLevel res.total
        last_interaction := ((res.memories.head?).map (fun m => m.created_at)).getD "" }

/-! ### Generation and the response envelope (`TwinService`) -/

/-- `TwinService.generateEnhancedTwinResponse`: on success the token count is
`Math.ceil((systemPrompt.length + userMessage.length + text.length) / 4)`; on
ANY provider error it throws `Failed to generate response: ...` (this inline
copy has no graceful-degradation branch). -/
def TwinService_generateEnhancedTwinResponse (env : ChatEnv)
    (systemPrompt _context userMessage : String) : Except String (String × Nat) :=
  match env.providerResult with
  | .ok text =>
    .ok (text, (systemPrompt.length + userMessage.length + text.length + 3) / 4)
  | .error e => .error ("Failed to generate response: " ++ e)

/-- `detectResponseTone` (identical in `TwinService` and `TwinUtilsService`). -/
def detectResponseTone (response : String) : String :=
  if response.data.contains '!' && response.data.contains '?' then "enthusiastic"
  else if response.data.contains '?' then "curious"
  else if 200 < response.length then "detailed"
  else "conversational"

/-- `getAppliedContext`. -/
def getAppliedContext (memories : List RetrievedMemory) : List String :=
  memories.map fun m =>
    memTypeStr m.mtype ++ ": " ++ String.mk (m.content.data.take 50) ++ "..."

/-- The `data` part of the chat response envelope, flattened. -/
structure TwinChatData where
  response : String
  conversation_id : String
  memories_count : Nat
  memories_types : List String
  relevance_scores : List ℚ
  tone : String
  context_applied : List String
  new_memories_created : Nat
  user_insights_gained : List String
  tokens_used : Nat

structure ChatOutcome where
  /-- The envelope, or the propagated exception message. -/
  result : Except String TwinChatData
  /-- Whether the turn reached the generation-provider call. -/
  generationCalled : Bool
  /-- Whether the turn invoked `AmbiguityDetectionService`. -/
  ambiguityDetectorCalled : Bool

/-- `TwinService.chat` (`twinService.ts` lines 28-111): classify → retrieve
(errors absorbed) → user context (errors absorbed) → build prompts →
generate → learn → envelope.  A generation error is re-thrown.  The method
body contains no call to `AmbiguityDetectionService` (nothing in the
repository invokes that service), so the corresponding flag is constantly
`false`, and the generation stage is reached on every turn, so its flag is
constantly `true`. -/
def chat (env : ChatEnv) (req : TwinChatRequest) : ChatOutcome :=
  let qt := (classifyQuestion env.llmClassifyAnswer req.message).1
  let retr := retrieveRelevantMemoriesEnhanced env req.message qt
  let mems := retr.memories
  let uc :=
    match reqUserId req with
    | some uid => getUserContext env uid
    | none => none
  let systemPrompt := TwinService_buildEnhancedSystemPrompt qt mems uc
  let context := TwinService_buildEnhancedConversationContext qt mems uc req.message
  { result :=
      match TwinService_generateEnhancedTwinResponse env systemPrompt context req.message with
      | .error e => .error e
      | .ok (text, toks) =>
        let lr := enhancedLearnFromInteraction env.storeUserMessageOk qt req text
        .ok
          { response := text
            conversation_id :=
              match req.conversation_id with
              | some c => if c = "" then "default" else c
              | none => "default"
            memories_count := mems.length
            memories_types := jsDedup (mems.map fun m => memTypeStr m.mtype)
            relevance_scores := mems.map fun m => m.relevance_score
            tone := detectResponseTone text
            context_applied := getAppliedContext mems
            new_memories_created := lr.new_memories_created
            user_insights_gained := lr.user_insights_gained
            tokens_used := toks }
    generationCalled := true
    ambiguityDetectorCalled := false }

/-! ### Memory creation sanitizer (`MemoryService.sanitizeMemoryData`) -/

structure CreateMemoryRequest where
  content : String
  mtype : MemType
  visibility : Visibility
  mood : Option String
  tags : Option (List String)
  metadata : Option (List (String × String))
deriving DecidableEq

/-- The tag-cleaning pipeline of `sanitizeMemoryData`:
`Array.from(new Set(tags.map(tag => tag.trim().toLowerCase()).filter(tag => tag.length > 0)))`. -/
def cleanTags (ts : List String) : List String :=
  jsDedup ((ts.map fun t => jsToLower (jsTrim t)).filter fun t => !(t == ""))

/-- `MemoryService.sanitizeMemoryData`: trims the content and mood (an empty
trimmed mood is falsy, hence dropped), cleans the tags (`[]` when absent) and
defaults the metadata to `{}`. -/
def sanitizeMemoryData (request : CreateMemoryRequest) : CreateMemoryRequest :=
  { content := jsTrim request.content
    mtype := request.mtype
    visibility := request.visibility
    mood :=
      match request.mood with
      | some m => if jsTrim m = "" then none else some (jsTrim m)
      | none => none
    tags :=
      match request.tags with
      | some ts => some (cleanTags ts)
      | none => some []
    metadata := some (request.metadata.getD []) }

theorem string_ne_empty_of_data {s : String} (h : s.data ≠ []) : s ≠ "" := by
  intro hc
  rw [hc] at h
  exact h rfl

theorem jsTrim_of_clean {t : String} (hh : ∀ c, t.data.head? = some c → wsChar c = false)
    (hl : ∀ c, t.data.getLast? = some c → wsChar c = false) : jsTrim t = t := by
  have := trimL_eq_self hh hl
  cases t
  exact congrArg String.mk this

/-- Trimming then lowercasing yields a string that trimming does not change
(case folding maps no character in or out of the whitespace class). -/
theorem jsTrim_lower_trim (u : String) :
    jsTrim (jsToLower (jsTrim u)) = jsToLower (jsTrim u) := by
  refine jsTrim_of_clean ?_ ?_
  · intro c hc
    show wsChar c = false
    have : (List.map lowerChar (trimL u.data)).head? = some c := hc
    rw [List.head?_map] at this
    cases h0 : (trimL u.data).head? with
    | none => rw [h0] at this; exact absurd this (by simp)
    | some c0 =>
      rw [h0] at this
      have hc0 : c = lowerChar c0 := by
        simpa using this.symm
      rw [hc0, wsChar_lowerChar]
      exact trimL_head u.data c0 h0
  · intro c hc
    show wsChar c = false
    have : (List.map lowerChar (trimL u.data)).getLast? = some c := hc
    rw [List.getLast?_map] at this
    cases h0 : (trimL u.data).getLast? with
    | none => rw [h0] at this; exact absurd this (by simp)
    | some c0 =>
      rw [h0] at this
      have hc0 : c = lowerChar c0 := by
        simpa using this.symm
      rw [hc0, wsChar_lowerChar]
      exact trimL_getLast u.data c0 h0

theorem mem_cleanTags {t : String} {ts : List String} (h : t ∈ cleanTags ts) :
    (∃ u ∈ ts, t = jsToLower (jsTrim u)) ∧ t ≠ "" := by
  rw [cleanTags, mem_jsDedup, List.mem_filter] at h
  obtain ⟨hmem, hne⟩ := h
  rw [List.mem_map] at hmem
  obtain ⟨u, hu, rfl⟩ := hmem
  refine ⟨⟨u, hu, rfl⟩, ?_⟩
  intro hc
  rw [hc] at hne
  simp at hne

theorem cleanTags_clean {t : String} {ts : List String} (h : t ∈ cleanTags ts) :
    jsTrim t = t ∧ jsToLower t = t ∧ t ≠ "" := by
  obtain ⟨⟨u, _, rfl⟩, hne⟩ := mem_cleanTags h
  exact ⟨jsTrim_lower_trim u, jsToLower_idem (jsTrim u), hne⟩

theorem cleanTags_of_clean {ts : List String}
    (hc : ∀ t ∈ ts, jsTrim t = t ∧ jsToLower t = t ∧ t ≠ "")
    (hn : ts.Nodup) : cleanTags ts = ts := by
  rw [cleanTags]
  have hmap : ts.map (fun t => jsToLower (jsTrim t)) = ts := by
    have : ts.map (fun t => jsToLower (jsTrim t)) = ts.map id := by
      refine List.map_congr_left fun t ht => ?_
      rw [(hc t ht).1, (hc t ht).2.1]
      rfl
    simpa using this
  rw [hmap]
  have hfil : ts.filter (fun t => !(t == "")) = ts := by
    rw [List.filter_eq_self]
    intro t ht
    simpa using (hc t ht).2.2
  rw [hfil]
  exact jsDedup_eq_self hn

theorem cleanTags_nodup (ts : List String) : (cleanTags ts).Nodup :=
  nodup_jsDedup _

/-! ### The claims -/

theorem nat_ceil_div_four (n : ℕ) : ⌈(n : ℚ) / 4⌉ = ((n + 3) / 4 : ℕ) := by
  obtain ⟨q, hq⟩ : ∃ q : ℕ, (n + 3) / 4 = q := ⟨_, rfl⟩
  have h1 : 4 * q ≤ n + 3 := by omega
  have h2 : n + 3 < 4 * q + 4 := by omega
  have h1q : (4 : ℚ) * (q : ℚ) ≤ (n : ℚ) + 3 := by exact_mod_cast h1
  have h2q : (n : ℚ) + 3 < 4 * (q : ℚ) + 4 := by exact_mod_cast h2
  have h3 : n ≤ 4 * q := by omega
  have h3q : (n : ℚ) ≤ 4 * (q : ℚ) := by exact_mod_cast h3
  rw [hq, Int.ceil_eq_iff]
  constructor
  · show ((q : ℤ) : ℚ) - 1 < (n : ℚ) / 4
    rw [lt_div_iff₀ (by norm_num : (0 : ℚ) < 4)]
    push_cast
    linarith
  · show (n : ℚ) / 4 ≤ ((q : ℤ) : ℚ)
    rw [div_le_iff₀ (by norm_num : (0 : ℚ) < 4)]
    push_cast
    linarith

/-- C4: an error whose message carries one of the nine transient signatures
('503', '429', 'overloaded', 'rate limit', 'quota', 'network', 'timeout',
'Service Unavailable', 'connection') makes the generation error handler
return a graceful result with `isGracefulError = true` and
`tokens_used = ⌈response.length / 4⌉` instead of throwing; any other error
message is re-thrown as a hard failure. -/
theorem handleGenerationError_graceful (errorMessage userMessage : String)
    (rng : Nat) :
    (shouldHandleGracefully errorMessage =
      (jsIncludes errorMessage "503" || jsIncludes errorMessage "429" ||
        jsIncludes errorMessage "overloaded" || jsIncludes errorMessage "rate limit" ||
        jsIncludes errorMessage "quota" || jsIncludes errorMessage "network" ||
        jsIncludes errorMessage "timeout" ||
        jsIncludes errorMessage "Service Unavailable" ||
        jsIncludes errorMessage "connection")) ∧
    (shouldHandleGracefully errorMessage = true →
      ∃ g, handleGenerationError errorMessage userMessage rng = .ok g ∧
        g.isGracefulError = true ∧
        (g.tokens_used : ℤ) = ⌈(g.response.length : ℚ) / 4⌉) ∧
    (shouldHandleGracefully errorMessage = false →
      handleGenerationError errorMessage userMessage rng =
        .error ("Failed to generate response: " ++ errorMessage)) := by
  refine ⟨rfl, ?_, ?_⟩
  · intro h
    refine ⟨handleGeminiError errorMessage userMessage rng, ?_, rfl, ?_⟩
    · rw [handleGenerationError, if_pos h]
    · rw [nat_ceil_div_four]
      rfl
  · intro h
    rw [handleGenerationError, if_neg (by simp [h])]

theorem c4_witness :
    (shouldHandleGracefully "503 Service Unavailable" = true ∧
      ∃ g, handleGenerationError "503 Service Unavailable" "what's up" 2 = .ok g ∧
        g.isGracefulError = true ∧
        (g.tokens_used : ℤ) = ⌈(g.response.length : ℚ) / 4⌉) ∧
    (shouldHandleGracefully "boom: unexpected" = false ∧
      handleGenerationError "boom: unexpected" "what's up" 2 =
        .error ("Failed to generate response: " ++ "boom: unexpected")) :=
  ⟨⟨by decide,
    (handleGenerationError_graceful "503 Service Unavailable" "what's up" 2).2.1
      (by decide)⟩,
   ⟨by decide,
    (handleGenerationError_graceful "boom: unexpected" "what's up" 2).2.2
      (by decide)⟩⟩

/-- The fixed priority order of the keyword lists. -/
def questionTypePriority : QuestionType → Nat
  | .casual => 0
  | .personal => 1
  | .technical => 2
  | .deep => 3
  | .specific => 4

/-- Whether a category's keyword list hits the lowercased message. -/
def keywordHit (qt : QuestionType) (message : String) : Bool :=
  (classificationPatterns qt).any fun p => jsIncludes (jsToLower message) p

/-- C5: classification is total (a Lean function); a message hitting a
category's keyword list, with no earlier-priority list hitting, is classified
as that category with no LLM call; when no list hits and the LLM fallback
fails (`none`) or answers something that is not one of the five category
names (after trimming and lowercasing), the result is `casual`. -/
theorem classifyQuestion_spec (message : String) (llmAnswer : Option String) :
    (∀ qt : QuestionType, keywordHit qt message = true →
      (∀ qt' : QuestionType,
        questionTypePriority qt' < questionTypePriority qt →
        keywordHit qt' message = false) →
      classifyQuestion llmAnswer message = (qt, false)) ∧
    ((∀ qt : QuestionType, keywordHit qt message = false) →
      (∀ ans, llmAnswer = some ans →
        jsToLower (jsTrim ans) ∉
          (["casual", "personal", "technical", "deep", "specific"] : List String)) →
      (classifyQuestion llmAnswer message).1 = .casual) := by
  constructor
  · intro qt h hlt
    cases qt with
    | casual =>
      rw [keywordHit] at h
      simp [classifyQuestion, fastClassifyByKeywords, h]
    | personal =>
      have h0 := hlt .casual (by decide)
      rw [keywordHit] at h h0
      simp [classifyQuestion, fastClassifyByKeywords, h, h0]
    | technical =>
      have h0 := hlt .casual (by decide)
      have h1 := hlt .personal (by decide)
      rw [keywordHit] at h h0 h1
      simp [classifyQuestion, fastClassifyByKeywords, h, h0, h1]
    | deep =>
      have h0 := hlt .casual (by decide)
      have h1 := hlt .personal (by decide)
      have h2 := hlt .technical (by decide)
      rw [keywordHit] at h h0 h1 h2
      simp [classifyQuestion, fastClassifyByKeywords, h, h0, h1, h2]
    | specific =>
      have h0 := hlt .casual (by decide)
      have h1 := hlt .personal (by decide)
      have h2 := hlt .technical (by decide)
      have h3 := hlt .deep (by decide)
      rw [keywordHit] at h h0 h1 h2 h3
      simp [classifyQuestion, fastClassifyByKeywords, h, h0, h1, h2, h3]
  · intro hnone hbad
    have h0 := hnone .casual
    have h1 := hnone .personal
    have h2 := hnone .technical
    have h3 := hnone .deep
    have h4 := hnone .specific
    rw [keywordHit] at h0 h1 h2 h3 h4
    simp only [classifyQuestion, fastClassifyByKeywords, h0, h1, h2, h3, h4,
      Bool.false_eq_true, if_false]
    cases llmAnswer with
    | none => rfl
    | some ans =>
      have hb := hbad ans rfl
      simp only [List.mem_cons, List.not_mem_nil, or_false, not_or] at hb
      obtain ⟨b1, b2, b3, b4, b5⟩ := hb
      simp [llmClassifyQuestion, b1, b2, b3, b4, b5]

theorem c5_witness :
    classifyQuestion (some "banana") "hey there" = (.casual, false) ∧
    (classifyQuestion (some "banana") "xyzzy").1 = .casual :=
  ⟨(classifyQuestion_spec "hey there" (some "banana")).1 .casual (by decide)
      (by intro qt' hq; exact absurd hq (by cases qt' <;> decide)),
   (classifyQuestion_spec "xyzzy" (some "banana")).2
      (by intro qt; cases qt <;> decide)
      (by intro ans h; cases h; decide)⟩

/-- C6: for the `casual` category, whose configured memory count is 0,
retrieval returns the empty list immediately — no embedding call and no
vector-store query — for every message and environment. -/
theorem retrieval_casual_empty (env : ChatEnv) (message : String) :
    memoryConfigCount .casual = 0 ∧
    retrieveRelevantMemoriesEnhanced env message .casual =
      { memories := [], embedCalled := false, searchCalled := false } :=
  ⟨rfl, rfl⟩

/-- C7 counterexample: "your favorite color?" has 3 words, mentions no
knowledge domain, and is keyword-classified `personal` (it contains
"favorite"), yet the detector does not flag it — no generic-question pattern
or vague-object word fires, so the accumulated confidence stays 0. -/
theorem detectAmbiguity_short_personal_not_flagged :
    jsWordCount "your favorite color?" ≤ 4 ∧
    mentionedDomains "your favorite color?" = [] ∧
    fastClassifyByKeywords "your favorite color?" = some .personal ∧
    (detectAmbiguity "your favorite color?").isAmbiguous = false ∧
    (detectAmbiguity "your favorite color?").confidenceTenths = 0 := by
  refine ⟨by decide, by decide, by decide, by decide, by decide⟩

/-- C7 amended: a short (≤ 4 words) `personal`-classified message with no
domain keyword is flagged ambiguous provided it also fires the
keyword-ambiguity signal (a generic question pattern or a vague-object word
— without that signal the cascade contributes 0, see the counterexample);
and any message mentioning a knowledge domain is never flagged: its
confidence is at most 0.4 < 0.5. -/
theorem detectAmbiguity_spec (message : String) :
    (jsWordCount message ≤ 4 →
      fastClassifyByKeywords message = some .personal →
      (mentionedDomains message).isEmpty = true →
      (detectKeywordAmbiguity message).1 = true →
      (detectAmbiguity message).isAmbiguous = true) ∧
    ((mentionedDomains message).isEmpty = false →
      (detectAmbiguity message).isAmbiguous = false ∧
      (detectAmbiguity message).confidence < 1/2) := by
  constructor
  · intro _ _ hscope hkw
    have hscope' : (detectScopeAmbiguity message).1 = true := hscope
    cases hs : (analyzeQuestionSpecificity message).1 <;>
      simp [detectAmbiguity, hkw, hscope', hs]
  · intro h
    have hscope' : (detectScopeAmbiguity message).1 = false := h
    refine ⟨?_, ?_⟩
    · cases hkw : (detectKeywordAmbiguity message).1 <;>
        simp [detectAmbiguity, hscope', hkw]
    · cases hkw : (detectKeywordAmbiguity message).1 <;>
        norm_num [detectAmbiguity, AmbiguityDetectionResult.confidence, hscope', hkw]

theorem c7_witness :
    (detectAmbiguity "what do you like").isAmbiguous = true ∧
    (detectAmbiguity "what music do you like").isAmbiguous = false ∧
    (detectAmbiguity "what music do you like").confidence < 1/2 :=
  ⟨(detectAmbiguity_spec "what do you like").1 (by decide) (by decide) (by decide)
      (by decide),
   ((detectAmbiguity_spec "what music do you like").2 (by decide)).1,
   ((detectAmbiguity_spec "what music do you like").2 (by decide)).2⟩

/-- The spec's wording of the length-appropriateness score: 1.0 up to 1.2×
the target, 0.8 up to the maximum, 0.6 up to 1.5× the maximum, else 0.3. -/
def lengthScoreSpec (w t m : Nat) : ℚ :=
  if (w : ℚ) ≤ 1.2 * (t : ℚ) then 1.0
  else if (w : ℚ) ≤ (m : ℚ) then 0.8
  else if (w : ℚ) ≤ 1.5 * (m : ℚ) then 0.6
  else 0.3

/-- C8: the implemented score is exactly the piecewise function of the word
count against target and maximum; for the `personal` configuration
(target 40, max 80) a 48-word response scores 1.0, an 80-word response 0.8,
and a 130-word response 0.3. -/
theorem calculateLengthScore_spec :
    (∀ (w : Nat) (cfg : ResponseLengthConfig),
      calculateLengthScore w cfg = lengthScoreSpec w cfg.target_words cfg.max_words) ∧
    (responseLength .personal).target_words = 40 ∧
    (responseLength .personal).max_words = 80 ∧
    calculateLengthScore 48 (responseLength .personal) = 1.0 ∧
    calculateLengthScore 80 (responseLength .personal) = 0.8 ∧
    calculateLengthScore 130 (responseLength .personal) = 0.3 := by
  refine ⟨?_, rfl, rfl, ?_, ?_, ?_⟩
  · intro w cfg
    rw [calculateLengthScore, lengthScoreSpec, mul_comm (1.2 : ℚ), mul_comm (1.5 : ℚ)]
  · rw [show responseLength .personal = ⟨40, 80, "engaging_with_followup"⟩ from rfl,
      calculateLengthScore, if_pos (by norm_num)]
  · rw [show responseLength .personal = ⟨40, 80, "engaging_with_followup"⟩ from rfl,
      calculateLengthScore, if_neg (by norm_num), if_pos (by norm_num)]
  · rw [show responseLength .personal = ⟨40, 80, "engaging_with_followup"⟩ from rfl,
      calculateLengthScore, if_neg (by norm_num), if_neg (by norm_num),
      if_neg (by norm_num)]

theorem determineRelationshipLevel_iff (n : Nat) :
    (determineRelationshipLevel n = .stranger ↔ n = 0) ∧
    (determineRelationshipLevel n = .acquaintance ↔ (1 ≤ n ∧ n < 5)) ∧
    (determineRelationshipLevel n = .friend ↔ (5 ≤ n ∧ n < 20)) ∧
    (determineRelationshipLevel n = .close_friend ↔ 20 ≤ n) := by
  unfold determineRelationshipLevel
  split_ifs with h1 h2 h3 <;> refine ⟨?_, ?_, ?_, ?_⟩ <;> simp <;> omega

def rowsC9 : List UserMemRow :=
  [{ tags := ["music", "music", "tech"], created_at := "t1" },
   { tags := ["tech"], created_at := "t2" }]

def envC9 : ChatEnv :=
  { llmClassifyAnswer := none
    embedResult := .error "na"
    search := fun _ => .error "na"
    getMemoriesDb := fun _ => { memories := rowsC9, total := 7 }
    getMemoriesError := fun _ => none
    providerResult := .error "na"
    storeUserMessageOk := false }

def envC9err : ChatEnv :=
  { llmClassifyAnswer := none
    embedResult := .error "na"
    search := fun _ => .error "na"
    getMemoriesDb := fun _ => { memories := rowsC9, total := 7 }
    getMemoriesError := fun _ => some "connection failed"
    providerResult := .error "na"
    storeUserMessageOk := false }

/-- C9 counterexample: when the `getMemories` call throws (re-thrown by
`DatabaseService.handleSupabaseError`), `getUserContext`'s `catch` returns
`null` even though the user does have stored `user_input` memories — so
`null` does not hold exactly when the user has no stored memories. -/
theorem getUserContext_null_on_db_error :
    (envC9err.getMemoriesDb (userContextQuery "u1")).memories ≠ [] ∧
    dbGetMemories envC9err (userContextQuery "u1") =
      .error "connection failed" ∧
    getUserContext envC9err "u1" = none :=
  ⟨by simp [envC9err, rowsC9], rfl, rfl⟩

/-- C9 amended: `getUserContext` queries up to 50 most recent `user_input`
memories; it returns `null` iff the `getMemories` call throws (the `catch`
absorbs the error) or the query yields no memories — not exactly-when-empty,
see the counterexample.  On a non-null result the call succeeded, the known
preferences are the deduplicated union of the rows' tags, and the
relationship tier is determined by the interaction count (0 → stranger,
<5 → acquaintance, <20 → friend, else close_friend). -/
theorem getUserContext_spec (env : ChatEnv) (userId : String) :
    (userContextQuery userId).limit = 50 ∧
    (userContextQuery userId).mtype = .user_input ∧
    (getUserContext env userId = none ↔
      ((∃ e, env.getMemoriesError (userContextQuery userId) = some e) ∨
        (env.getMemoriesError (userContextQuery userId) = none ∧
          (env.getMemoriesDb (userContextQuery userId)).memories = []))) ∧
    ∀ ctx, getUserContext env userId = some ctx →
      env.getMemoriesError (userContextQuery userId) = none ∧
      ctx.known_preferences.Nodup ∧
      (∀ t, t ∈ ctx.known_preferences ↔
        ∃ mrow ∈ (env.getMemoriesDb (userContextQuery userId)).memories,
          t ∈ mrow.tags) ∧
      ctx.conversation_history_length =
        (env.getMemoriesDb (userContextQuery userId)).total ∧
      (ctx.relationship_level = .stranger ↔
        (env.getMemoriesDb (userContextQuery userId)).total = 0) ∧
      (ctx.relationship_level = .acquaintance ↔
        (1 ≤ (env.getMemoriesDb (userContextQuery userId)).total ∧
          (env.getMemoriesDb (userContextQuery userId)).total < 5)) ∧
      (ctx.relationship_level = .friend ↔
        (5 ≤ (env.getMemoriesDb (userContextQuery userId)).total ∧
          (env.getMemoriesDb (userContextQuery userId)).total < 20)) ∧
      (ctx.relationship_level = .close_friend ↔
        20 ≤ (env.getMemoriesDb (userContextQuery userId)).total) := by
  refine ⟨rfl, rfl, ?_⟩
  cases herr : env.getMemoriesError (userContextQuery userId) with
  | some e =>
    have hnone : getUserContext env userId = none := by
      rw [getUserContext, dbGetMemories, herr]
    refine ⟨⟨fun _ => Or.inl ⟨e, rfl⟩, fun _ => hnone⟩, ?_⟩
    intro ctx hc
    rw [hnone] at hc
    cases hc
  | none =>
    have hred : getUserContext env userId =
        (if (env.getMemoriesDb (userContextQuery userId)).memories.isEmpty then
          none
        else
          some
            { user_id := userId
              known_preferences :=
                extractUserPreferences
                  (env.getMemoriesDb (userContextQuery userId)).memories
              conversation_history_length :=
                (env.getMemoriesDb (userContextQuery userId)).total
              relationship_level :=
                determineRelationshipLevel
                  (env.getMemoriesDb (userContextQuery userId)).total
              last_interaction :=
                (((env.getMemoriesDb (userContextQuery userId)).memories.head?).map
                  (fun m => m.created_at)).getD "" }) := by
      rw [getUserContext, dbGetMemories, herr]
    refine ⟨?_, ?_⟩
    · rw [hred]
      constructor
      · intro hn
        by_cases hh : (env.getMemoriesDb (userContextQuery userId)).memories.isEmpty
        · exact Or.inr ⟨rfl, List.isEmpty_iff.mp hh⟩
        · rw [if_neg hh] at hn
          cases hn
      · rintro (⟨e, he⟩ | ⟨_, hemp⟩)
        · exact Option.noConfusion he
        · rw [if_pos (List.isEmpty_iff.mpr hemp)]
    · intro ctx hc
      rw [hred] at hc
      by_cases hh : (env.getMemoriesDb (userContextQuery userId)).memories.isEmpty
      · rw [if_pos hh] at hc
        cases hc
      · rw [if_neg hh] at hc
        have hctx := (Option.some.injEq _ _).mp hc
        subst hctx
        refine ⟨rfl, nodup_jsDedup _, ?_, rfl, ?_, ?_, ?_, ?_⟩
        · intro t
          simp only [extractUserPreferences, mem_jsDedup, List.mem_flatten,
            List.mem_map]
          constructor
          · rintro ⟨l, ⟨row, hrow, rfl⟩, ht⟩
            exact ⟨row, hrow, ht⟩
          · rintro ⟨row, hrow, ht⟩
            exact ⟨row.tags, ⟨row, hrow, rfl⟩, ht⟩
        · exact (determineRelationshipLevel_iff _).1
        · exact (determineRelationshipLevel_iff _).2.1
        · exact (determineRelationshipLevel_iff _).2.2.1
        · exact (determineRelationshipLevel_iff _).2.2.2

theorem c9_witness :
    (userContextQuery "u1").limit = 50 ∧
    getUserContext envC9 "u1" =
      some
        { user_id := "u1"
          known_preferences := ["music", "tech"]
          conversation_history_length := 7
          relationship_level := .friend
          last_interaction := "t1" } ∧
    envC9.getMemoriesError (userContextQuery "u1") = none ∧
    (["music", "tech"] : List String).Nodup ∧
    ("music" ∈ (["music", "tech"] : List String) ↔
      ∃ mrow ∈ (envC9.getMemoriesDb (userContextQuery "u1")).memories,
        "music" ∈ mrow.tags) := by
  have hctx :
      getUserContext envC9 "u1" =
        some
          { user_id := "u1"
            known_preferences := ["music", "tech"]
            conversation_history_length := 7
            relationship_level := .friend
            last_interaction := "t1" } := rfl
  have h := (getUserContext_spec envC9 "u1").2.2.2 _ hctx
  exact ⟨(getUserContext_spec envC9 "u1").1, hctx, h.1, h.2.1, h.2.2.1 "music"⟩

/-- C10: `sanitizeMemoryData` trims the content, normalizes the tags
(trimmed, lowercased, non-empty, deduplicated) and is idempotent: applying
it to its own output changes nothing. -/
theorem sanitizeMemoryData_idempotent (r : CreateMemoryRequest) :
    sanitizeMemoryData (sanitizeMemoryData r) = sanitizeMemoryData r ∧
    (sanitizeMemoryData r).content = jsTrim r.content ∧
    ∃ ts, (sanitizeMemoryData r).tags = some ts ∧ ts.Nodup ∧
      ∀ t ∈ ts, jsTrim t = t ∧ jsToLower t = t ∧ t ≠ "" := by
  rcases r with ⟨c, mt, vis, mood, tags, meta⟩
  refine ⟨?_, rfl, ?_⟩
  · simp only [sanitizeMemoryData, CreateMemoryRequest.mk.injEq, Option.getD_some]
    refine ⟨jsTrim_idem c, trivial, trivial, ?_, ?_, trivial⟩
    · cases mood with
      | none => rfl
      | some m =>
        by_cases he : jsTrim m = ""
        · simp [he]
        · simp [he, jsTrim_idem]
    · cases tags with
      | none => rfl
      | some ts =>
        show some (cleanTags (cleanTags ts)) = some (cleanTags ts)
        rw [cleanTags_of_clean (fun t hmem => cleanTags_clean hmem)
          (cleanTags_nodup ts)]
  · cases tags with
    | none =>
      exact ⟨[], rfl, List.nodup_nil, by intro t htx; cases htx⟩
    | some ts =>
      exact ⟨cleanTags ts, rfl, cleanTags_nodup ts,
        fun t hmem => cleanTags_clean hmem⟩

def reqC10 : CreateMemoryRequest :=
  { content := "  I love lofi music  "
    mtype := .preference
    visibility := .visPublic
    mood := some "  chill "
    tags := some ["  Music ", "music", "", "LoFi"]
    metadata := none }

theorem not_infix_of_isInfixB {t l : List Char} (h : isInfixB t l = false) :
    ¬ t <:+: l := by
  intro hc
  rw [← isInfixB_iff] at hc
  rw [h] at hc
  cases hc

def reqTS (msg : String) : TwinChatRequest :=
  { message := msg, conversation_id := none, user_id := none, user_name := none }

def envGenOk : ChatEnv :=
  { llmClassifyAnswer := none
    embedResult := .error "embedding unavailable"
    search := fun _ => .error "store unavailable"
    getMemoriesDb := fun _ => { memories := [], total := 0 }
    getMemoriesError := fun _ => none
    providerResult := .ok "Hi!"
    storeUserMessageOk := true }

def env503 : ChatEnv :=
  { llmClassifyAnswer := none
    embedResult := .error "embedding unavailable"
    search := fun _ => .error "store unavailable"
    getMemoriesDb := fun _ => { memories := [], total := 0 }
    getMemoriesError := fun _ => none
    providerResult := .error "503 Service Unavailable"
    storeUserMessageOk := true }

/-- C1 counterexample: "what do you like" is keyword-classified `personal`
and the ambiguity detector flags it with full confidence, yet the chat
operation still makes the generation-provider call and returns the
provider's text, not a clarification: `TwinService.chat` never consults the
detector. -/
theorem chat_personal_ambiguous_still_generates :
    (classifyQuestion envGenOk.llmClassifyAnswer "what do you like").1 = .personal ∧
    (detectAmbiguity "what do you like").isAmbiguous = true ∧
    (detectAmbiguity "what do you like").confidenceTenths = 10 ∧
    (chat envGenOk (reqTS "what do you like")).generationCalled = true ∧
    (chat envGenOk (reqTS "what do you like")).result.map (fun d => d.response) =
      Except.ok "Hi!" :=
  ⟨by decide, by decide, by decide, rfl, rfl⟩

/-- C1 amended: the orchestrator's chat operation never invokes the
ambiguity detector — `AmbiguityDetectionService` is dead code — and reaches
the generation-provider call on every turn (classification, retrieval and
user-context loading absorb their own failures), including turns whose
message is classified `personal` and flagged ambiguous by the detector. -/
theorem chat_never_consults_ambiguity (env : ChatEnv) (req : TwinChatRequest) :
    (chat env req).ambiguityDetectorCalled = false ∧
    (chat env req).generationCalled = true :=
  ⟨rfl, rfl⟩

/-- C2 counterexample: with the empty memory list, the system prompt that
`TwinService.chat` actually builds (its inline
`buildEnhancedSystemPrompt`) contains no "None available" / "no memories"
marker at all — the memory section is simply omitted. -/
theorem tsPrompt_empty_has_no_marker :
    jsIncludes (TwinService_buildEnhancedSystemPrompt .personal [] none)
      "None available" = false ∧
    jsIncludes (TwinService_buildEnhancedSystemPrompt .personal [] none)
      "no memories" = false ∧
    jsIncludes (TwinService_buildEnhancedSystemPrompt .personal [] none)
      "NO specific memories" = false ∧
    jsIncludes (TwinService_buildEnhancedSystemPrompt .personal [] none)
      "RELEVANT PERSONAL CONTEXT" = false :=
  ⟨by decide, by decide, by decide, by decide⟩

/-- The explicit no-memories marker of the standalone prompt builder. -/
def noMemoriesMarker : String := "You have NO specific memories loaded"

/-- The literal templates that introduce the memory list when memories are
present. -/
def memTemplate1 : String := "RELEVANT PERSONAL CONTEXT (ONLY USE THESE):"

def memTemplate2 : String := "MEMORY VALIDATION:"

theorem PB_prompt_nil_none (qt : QuestionType) :
    PromptBuilder_buildEnhancedSystemPrompt qt [] none =
      PB_header ++ PB_noMemBlock ++ PB_styleBlock qt ++ "\nâ€¢ Structure: " ++
        "admit_limitation_then_ask_about_user" ++ "\n\n" ++
        getMemorySafeInstructions qt false := rfl

theorem PB_prompt_nil_some (qt : QuestionType) (u : UserMemoryContext) :
    PromptBuilder_buildEnhancedSystemPrompt qt [] (some u) =
      PB_header ++ PB_noMemBlock ++ PB_userBlock u ++ PB_styleBlock qt ++
        "\nâ€¢ Structure: " ++ "admit_limitation_then_ask_about_user" ++ "\n\n" ++
        getMemorySafeInstructions qt false := rfl

def PB_emptyPrefix : String := PB_header ++ PB_noMemBlock ++ "\n\nUSER CONTEXT:\nâ€¢ "

def PB_emptySuffix (qt : QuestionType) (rl : RelationshipLevel) : String :=
  " previous interactions\nâ€¢ Relationship: " ++ relationshipLevelStr rl ++
    PB_styleBlock qt ++ "\nâ€¢ Structure: " ++
    "admit_limitation_then_ask_about_user" ++ "\n\n" ++
    getMemorySafeInstructions qt false

theorem PB_prompt_nil_some_data (qt : QuestionType) (u : UserMemoryContext) :
    (PromptBuilder_buildEnhancedSystemPrompt qt [] (some u)).data =
      PB_emptyPrefix.data ++
        ((natStr u.conversation_history_length).data ++
          (PB_emptySuffix qt u.relationship_level).data) := by
  rw [PB_prompt_nil_some]
  simp only [PB_emptyPrefix, PB_emptySuffix, PB_userBlock, strData_append,
    List.append_assoc]

def PB_consTail (qt : QuestionType) (uc : Option UserMemoryContext) : String :=
  PB_memFooter ++
    (match uc with
     | some u => PB_userBlock u
     | none => "") ++
    PB_styleBlock qt ++ "\nâ€¢ Structure: " ++ structurePatterns qt ++ "\n\n" ++
    getMemorySafeInstructions qt true

theorem PB_prompt_cons_data (qt : QuestionType) (uc : Option UserMemoryContext)
    (m0 : RetrievedMemory) (ms' : List RetrievedMemory) :
    (PromptBuilder_buildEnhancedSystemPrompt qt (m0 :: ms') uc).data =
      (PB_header ++ PB_memHeader).data ++
        ((joinSep "\n" ((m0 :: ms').map pbMemoryLine)).data ++
          (PB_consTail qt uc).data) := by
  cases uc <;>
    simp only [PromptBuilder_buildEnhancedSystemPrompt, PB_consTail,
      List.isEmpty_cons, Bool.not_false, if_neg (by simp : ¬((false : Bool) = true)),
      strData_append, List.append_assoc, List.nil_append, List.append_nil,
      Bool.false_eq_true, if_false]

/-- C2 amended: the invariant holds of the standalone
`PromptBuilderService.buildEnhancedSystemPrompt` (the builder the
orchestrator actually uses omits the marker, see the counterexample): with
no memories the prompt carries the explicit "None available / You have NO
specific memories loaded" marker and neither memory-list template; with
memories present every retrieved memory's content appears verbatim. -/
theorem pbPrompt_antifabrication (qt : QuestionType)
    (uc : Option UserMemoryContext) (ms : List RetrievedMemory) :
    (ms = [] →
      jsIncludes (PromptBuilder_buildEnhancedSystemPrompt qt ms uc)
        noMemoriesMarker = true ∧
      jsIncludes (PromptBuilder_buildEnhancedSystemPrompt qt ms uc)
        memTemplate1 = false ∧
      jsIncludes (PromptBuilder_buildEnhancedSystemPrompt qt ms uc)
        memTemplate2 = false) ∧
    (∀ m ∈ ms, m.content.data <:+:
      (PromptBuilder_buildEnhancedSystemPrompt qt ms uc).data) := by
  constructor
  · rintro rfl
    cases uc with
    | none => refine ⟨?_, ?_, ?_⟩ <;> cases qt <;> decide
    | some u =>
      refine ⟨?_, ?_, ?_⟩
      · rw [jsIncludes_iff, PB_prompt_nil_some_data]
        have h0 : noMemoriesMarker.data <:+: PB_emptyPrefix.data := by
          rw [← isInfixB_iff]
          decide
        exact h0.trans (List.prefix_append _ _).isInfix
      · rw [jsIncludes_eq_false, PB_prompt_nil_some_data]
        refine not_infix_sep (by decide) (natStr_digit _) (natStr_ne_nil _)
          (not_infix_of_isInfixB (by decide)) ?_
        cases hrl : u.relationship_level <;> cases qt <;>
          exact not_infix_of_isInfixB (by decide)
      · rw [jsIncludes_eq_false, PB_prompt_nil_some_data]
        refine not_infix_sep (by decide) (natStr_digit _) (natStr_ne_nil _)
          (not_infix_of_isInfixB (by decide)) ?_
        cases hrl : u.relationship_level <;> cases qt <;>
          exact not_infix_of_isInfixB (by decide)
  · intro m hm
    cases ms with
    | nil => cases hm
    | cons m0 ms' =>
      have h1 : m.content.data <:+: (pbMemoryLine m).data :=
        List.infix_append "â€¢ ".data m.content.data _
      have h2 : (pbMemoryLine m).data <:+:
          (joinSep "\n" ((m0 :: ms').map pbMemoryLine)).data :=
        infix_joinSep (List.mem_map_of_mem _ hm)
      have h3 : (joinSep "\n" ((m0 :: ms').map pbMemoryLine)).data <:+:
          (PromptBuilder_buildEnhancedSystemPrompt qt (m0 :: ms') uc).data := by
        rw [PB_prompt_cons_data]
        exact (List.prefix_append _ _).isInfix.trans
          (List.suffix_append _ _).isInfix
      exact h1.trans (h2.trans h3)

def memC2 : RetrievedMemory :=
  { id := "m1"
    content := "I listen to lofi playlists while coding"
    mtype := .preference
    relevance_score := 1/2
    tags := ["music"]
    mood := some "chill"
    created_at := "t0" }

theorem c2_witness :
    jsIncludes (PromptBuilder_buildEnhancedSystemPrompt .personal [] none)
      noMemoriesMarker = true ∧
    jsIncludes (PromptBuilder_buildEnhancedSystemPrompt .personal [] none)
      memTemplate1 = false ∧
    memC2.content.data <:+:
      (PromptBuilder_buildEnhancedSystemPrompt .personal [memC2] none).data :=
  ⟨((pbPrompt_antifabrication .personal none []).1 rfl).1,
   ((pbPrompt_antifabrication .personal none []).1 rfl).2.1,
   (pbPrompt_antifabrication .personal none [memC2]).2 memC2 (by simp)⟩

/-- C3 counterexample: when the provider fails with "503 Service
Unavailable", `TwinService.chat` does not produce a success envelope at all
— its inline generation step re-throws every error, so the turn ends in an
exception (the HTTP layer then answers `success:false`). -/
theorem chat_503_throws :
    (chat env503 (reqTS "hey")).result =
      Except.error "Failed to generate response: 503 Service Unavailable" := rfl

/-- C3 amended: a generation-provider failure (503 or any other) propagates
out of `TwinService.chat` as the exception `Failed to generate response:
...`; no envelope with `success:true` is produced, and no response tone
"error_handling" exists — `detectResponseTone` only ever answers
enthusiastic/curious/detailed/conversational.  (The refactored
`ResponseGeneratorService`/`ErrorHandlingService`, which would degrade
gracefully, is not called by the orchestrator; see C4 for its behaviour.) -/
theorem chat_provider_error_propagates (env : ChatEnv) (req : TwinChatRequest)
    (e : String) (h : env.providerResult = .error e) :
    (chat env req).result = .error ("Failed to generate response: " ++ e) ∧
    (∀ s : String, detectResponseTone s ≠ "error_handling") := by
  constructor
  · simp only [chat, TwinService_generateEnhancedTwinResponse, h]
  · intro s
    rw [detectResponseTone]
    split_ifs <;> decide

theorem c3_witness :
    env503.providerResult = Except.error "503 Service Unavailable" ∧
    (chat env503 (reqTS "what's up")).result =
      Except.error ("Failed to generate response: " ++ "503 Service Unavailable") :=
  ⟨rfl,
   (chat_provider_error_propagates env503 (reqTS "what's up")
      "503 Service Unavailable" rfl).1⟩

theorem c10_witness :
    sanitizeMemoryData (sanitizeMemoryData reqC10) = sanitizeMemoryData reqC10 ∧
    (sanitizeMemoryData reqC10).content = jsTrim reqC10.content ∧
    (sanitizeMemoryData reqC10).content = "I love lofi music" ∧
    (sanitizeMemoryData reqC10).tags = some ["music", "lofi"] ∧
    (sanitizeMemoryData reqC10).mood = some "chill" :=
  ⟨(sanitizeMemoryData_idempotent reqC10).1,
   (sanitizeMemoryData_idempotent reqC10).2.1,
   by decide, by decide, by decide⟩

end Twin
